import Mathlib

/-!
Verification of `truck_trailer_multistage_2stages.py` (rockit truck-trailer
two-stage motion-planning script) against its natural-language specification.

The script is a declarative optimal-control problem description.  We embed the
parts the claims are about: the bicycle-with-trailer kinematic model set up by
`create_stage`, the path and corridor constraints, the stage-stitching
equalities, the solver options, the numpy `arange`-based resampling grid, the
result document, and the (optional) simulation loop.
-/

namespace TruckTrailer

open Real

/-- Vehicle geometry parameters loaded from `truck_trailer_para.yaml`:
wheelbase `L`, hitch offset `M` and width `W` for the truck (index 0) and the
trailer (index 1). -/
structure Params where
  L0 : ℝ
  M0 : ℝ
  W0 : ℝ
  L1 : ℝ
  M1 : ℝ
  W1 : ℝ

/-- The differential states declared by `create_stage`, in declaration order:
trailer heading `theta1`, trailer hitch position `(x1, y1)`, truck heading
`theta0`. -/
@[ext]
structure VehState where
  theta1 : ℝ
  x1 : ℝ
  y1 : ℝ
  theta0 : ℝ

/-- The two control inputs declared by `create_stage`: truck steering angle
`delta0` and truck longitudinal velocity `v0` (both declared with order 1). -/
structure Ctrl where
  delta0 : ℝ
  v0 : ℝ

/-- Articulation angle `beta01 = theta0 - theta1` (source line 107). -/
def beta01 (s : VehState) : ℝ := s.theta0 - s.theta1

/-- Truck yaw rate `dtheta0 = v0/L0*tan(delta0)` (source line 109). -/
noncomputable def dtheta0 (p : Params) (u : Ctrl) : ℝ :=
  u.v0 / p.L0 * Real.tan u.delta0

/-- Trailer yaw rate
`dtheta1 = v0/L1*sin(beta01) - M0/L1*cos(beta01)*dtheta0` (source line 110). -/
noncomputable def dtheta1 (p : Params) (s : VehState) (u : Ctrl) : ℝ :=
  u.v0 / p.L1 * Real.sin (beta01 s) - p.M0 / p.L1 * Real.cos (beta01 s) * dtheta0 p u

/-- Trailer hitch velocity
`v1 = v0*cos(beta01) + M0*sin(beta01)*dtheta0` (source line 111). -/
noncomputable def v1 (p : Params) (s : VehState) (u : Ctrl) : ℝ :=
  u.v0 * Real.cos (beta01 s) + p.M0 * Real.sin (beta01 s) * dtheta0 p u

/-- The state derivatives installed by `create_stage` through `stage.set_der`
(source lines 113-117), as a function of the current state and control. -/
noncomputable def stateDer (p : Params) (s : VehState) (u : Ctrl) : VehState :=
  { theta1 := dtheta1 p s u
    x1 := v1 p s u * Real.cos s.theta1
    y1 := v1 p s u * Real.sin s.theta1
    theta0 := dtheta0 p u }

/-- Derived truck reference position
`x0 = x1 + L1*cos(theta1) + M0*cos(theta0)` (source line 101): not a declared
state, but an expression in the declared states. -/
noncomputable def x0 (p : Params) (s : VehState) : ℝ :=
  s.x1 + p.L1 * Real.cos s.theta1 + p.M0 * Real.cos s.theta0

/-- Derived truck reference position
`y0 = y1 + L1*sin(theta1) + M0*sin(theta0)` (source line 102). -/
noncomputable def y0 (p : Params) (s : VehState) : ℝ :=
  s.y1 + p.L1 * Real.sin s.theta1 + p.M0 * Real.sin s.theta0

/-- The state vector of a stage as the ordered list of projections out of
`VehState`, in the order the states are declared by `create_stage`
(source lines 96-100): `theta1, x1, y1, theta0`. -/
def stateProjections : List (VehState → ℝ) :=
  [VehState.theta1, VehState.x1, VehState.y1, VehState.theta0]

/-! ### Corridor geometry (source lines 46-69) -/

/-- Corridor rotation `og = 0*pi/180`. -/
noncomputable def og : ℝ := 0 * Real.pi / 180

/-- `sg = sin(og)`. -/
noncomputable def sg : ℝ := Real.sin og

/-- `cg = cos(og)`. -/
noncomputable def cg : ℝ := Real.cos og

/-- Right corner point x-coordinate `xcr = 0.5`. -/
noncomputable def xcr : ℝ := 0.5

/-- Right corner point y-coordinate `ycr = 2`. -/
noncomputable def ycr : ℝ := 2

/-- Left corner point x-coordinate `xcl = -0.5`. -/
noncomputable def xcl : ℝ := -0.5

/-- Left corner point y-coordinate `ycl = 2.4`. -/
noncomputable def ycl : ℝ := 2.4

/-- A corridor half-plane, stored as the column vector `w = (a, b, c)` of
`vertcat(n, -n.T @ p)`: the constraint at a point `(px, py)` reads
`a*px + b*py + c <= 0`. -/
structure HalfPlane where
  a : ℝ
  b : ℝ
  c : ℝ

/-- `w.T @ (px, py, 1)`: the half-plane form evaluated on the homogeneous
coordinates of a point. -/
noncomputable def HalfPlane.dotHom (h : HalfPlane) (q : ℝ × ℝ) : ℝ :=
  h.a * q.1 + h.b * q.2 + h.c

/-- `w1_1 = vertcat(n1_1, -n1_1.T @ pcl)` with `n1_1 = (-cg, sg)` (lines 59-60). -/
noncomputable def w1_1 : HalfPlane := ⟨-cg, sg, -(-cg * xcl + sg * ycl)⟩

/-- `w2_1 = vertcat(n2_1, -n2_1.T @ pcr)` with `n2_1 = -n1_1` (lines 62-63). -/
noncomputable def w2_1 : HalfPlane := ⟨cg, -sg, -(cg * xcr + -sg * ycr)⟩

/-- `w1_2 = vertcat(n1_2, -n1_2.T @ pcl)` with `n1_2 = (sg, cg)` (lines 65-66). -/
noncomputable def w1_2 : HalfPlane := ⟨sg, cg, -(sg * xcl + cg * ycl)⟩

/-- `w2_2 = vertcat(n2_2, -n2_2.T @ pcr)` with `n2_2 = -n1_2` (lines 68-69). -/
noncomputable def w2_2 : HalfPlane := ⟨-sg, -cg, -(-sg * xcr + -cg * ycr)⟩

/-! ### Stage constraints (source lines 92-143) -/

/-- The path constraints imposed by `create_stage` (source lines 120-126), as
the ordered list of propositions passed to `stage.subject_to`, for a state
`s`, control `u` and control rate `du` (the controls are first order, so
`stage.der(v0)` and `stage.der(delta0)` are their rate inputs). -/
noncomputable def pathConstraints (s : VehState) (u du : Ctrl) : List Prop :=
  [(-0.2 ≤ u.v0 ∧ u.v0 ≤ 0.2),
   (-1 ≤ du.v0 ∧ du.v0 ≤ 1),
   (-(Real.pi / 6) ≤ u.delta0 ∧ u.delta0 ≤ Real.pi / 6),
   (-(Real.pi / 10) ≤ du.delta0 ∧ du.delta0 ≤ Real.pi / 10),
   (-(Real.pi / 2) ≤ beta01 s ∧ beta01 s ≤ Real.pi / 2)]

/-- The type of the footprint corner function `vert_vehic(x, y, theta,
w_left, w_right, L, M)` imported from `plot_trailer`.  That module is not part
of the sources under verification, so the function is kept abstract: the
claims about the room constraints hold for every choice of it. -/
def VertFun : Type :=
  ℝ → ℝ → ℝ → ℝ → ℝ → ℝ → ℝ → List (ℝ × ℝ)

/-- The room (corridor) constraints imposed by `create_stage` (source lines
130-138): for every footprint corner of the truck (placed at the derived pose
`x0, y0, theta0`) and of the trailer (at `x1, y1, theta1`), one scalar
constraint `w.T @ phom <= 0` per column of the corridor matrix `w`. -/
noncomputable def roomConstraints (vv : VertFun) (p : Params) (w : List HalfPlane)
    (s : VehState) : List Prop :=
  ((vv (x0 p s) (y0 p s) s.theta0 (p.W0 / 2) (p.W0 / 2) p.L0 p.M0).flatMap fun q =>
      w.map fun h => HalfPlane.dotHom h q ≤ 0) ++
  ((vv s.x1 s.y1 s.theta1 (p.W1 / 2) (p.W1 / 2) p.L1 p.M1).flatMap fun q =>
      w.map fun h => HalfPlane.dotHom h q ≤ 0)

/-- What `create_stage` installs on a stage: the declared state vector, the
control orders, the dynamics, the path constraints, the corridor matrix and
the room constraints built from it, and the multiple-shooting grid sizes. -/
structure StageData where
  t0Guess : ℝ
  TGuess : ℝ
  states : List (VehState → ℝ)
  controlOrders : List ℕ
  deriv : VehState → Ctrl → VehState
  pathCons : VehState → Ctrl → Ctrl → List Prop
  corridor : List HalfPlane
  roomCons : VehState → List Prop
  shootN : ℕ
  shootM : ℕ

/-- `create_stage(ocp, t0, T, N, M, w)` (source lines 92-143): declares the
four states and two first-order controls, installs the trailer dynamics, the
box path constraints, a MultipleShooting(N, M) method, and the corridor room
constraints for both footprints. -/
noncomputable def create_stage (p : Params) (vv : VertFun) (t0 T : ℝ) (N M : ℕ)
    (w : List HalfPlane) : StageData :=
  { t0Guess := t0
    TGuess := T
    states := stateProjections
    controlOrders := [1, 1]
    deriv := stateDer p
    pathCons := pathConstraints
    corridor := w
    roomCons := roomConstraints vv p w
    shootN := N
    shootM := M }

/-- Stage 1 ("Approach", source lines 165-166):
`create_stage(ocp, FreeTime(0), FreeTime(T_1), N_1, M_1, horzcat(w1_1, w2_1, w1_2))`
with `N_1 = 10`, `M_1 = 2`, `T_1 = 10`. -/
noncomputable def stage_1 (p : Params) (vv : VertFun) : StageData :=
  create_stage p vv 0 10 10 2 [w1_1, w2_1, w1_2]

/-- Stage 2 ("Corner", source lines 176-177):
`create_stage(ocp, FreeTime(T_1), FreeTime(T_2), N_2, M_2, horzcat(w1_2, w2_2, w1_1))`
with `N_2 = 5`, `M_2 = 2`, `T_2 = 10`. -/
noncomputable def stage_2 (p : Params) (vv : VertFun) : StageData :=
  create_stage p vv 10 10 5 2 [w1_2, w2_2, w1_1]

/-! ### Stage stitching (source lines 145-150) -/

/-- A stage viewed through its decision variables: its initial and final time
and its state trajectory. -/
structure StageSol where
  t0 : ℝ
  tf : ℝ
  traj : ℝ → VehState

/-- `stitch_stages(ocp, stage1, stage2)` (source lines 145-150): the ordered
list of equality constraints passed to `ocp.subject_to` — first
`stage1.tf == stage2.t0`, then, for each index `i` into the declared state
vector, `stage2.at_t0(stage2.states[i]) == stage1.at_tf(stage1.states[i])`. -/
def stitch_stages (s1 s2 : StageSol) : List Prop :=
  (s1.tf = s2.t0) ::
    stateProjections.map fun f => f (s2.traj s2.t0) = f (s1.traj s1.tf)

/-! ### Solver options (source lines 186-193) -/

/-- The `ipopt` sub-dictionary of the solver options. -/
structure IpoptOptions where
  linear_solver : String
  tol : ℝ

/-- The solver option dictionary passed to `ocp.solver` (source lines
187-192). -/
structure SolverOptions where
  expand : Bool
  verbose : Bool
  print_time : Bool
  error_on_fail : Bool
  ipopt : IpoptOptions

/-- The concrete options of the script (source lines 187-192). -/
noncomputable def options : SolverOptions :=
  { expand := true
    verbose := false
    print_time := true
    error_on_fail := true
    ipopt := { linear_solver := "ma57", tol := 1e-8 } }

/-- The solver plugin name passed to `ocp.solver` (source line 193). -/
def solverName : String := "ipopt"

/-- A concrete footprint-corner function used to instantiate theorems with
hypotheses on concrete inputs. -/
def vvOne : VertFun := fun _ _ _ _ _ _ _ => [(0, 0)]

/-- A concrete parameter record used to instantiate theorems with hypotheses
on concrete inputs. -/
noncomputable def pOne : Params := ⟨1, 1, 1, 1, 1, 1⟩

/-! ### Initial conditions (source lines 82-85) -/

/-- `x1_t0 = 0.` -/
def x1_t0 : ℝ := 0

/-- `y1_t0 = 0.` -/
def y1_t0 : ℝ := 0

/-- `theta1_t0 = pi/2` -/
noncomputable def theta1_t0 : ℝ := Real.pi / 2

/-- `theta0_t0 = pi/2` -/
noncomputable def theta0_t0 : ℝ := Real.pi / 2

/-! ### Resampling grid (source lines 43-44, 229-242)

The solved stage durations and the grid are decimal floating-point values in
the script; they are modelled as rationals, which keeps the grid exactly
computable. -/

/-- The fixed resampling timestep `Ts = 0.1` (source line 44). -/
def Ts : ℚ := 1 / 10

/-- numpy `arange(a, b, s)` for positive step `s`: `ceil((b - a)/s)` equally
spaced points `a + i*s` starting at `a` (empty when `b <= a`). -/
def arange (a b s : ℚ) : List ℚ :=
  (List.range ⌈(b - a) / s⌉₊).map fun i : ℕ => a + (i : ℚ) * s

/-- `t1_ctrl = np.arange(0., t1_sol, Ts)` (source line 229). -/
def t1_ctrl (t1_sol : ℚ) : List ℚ := arange 0 t1_sol Ts

/-- `t2_ctrl = np.arange(t1_sol, t2_sol, Ts)` (source line 230). -/
def t2_ctrl (t1_sol t2_sol : ℚ) : List ℚ := arange t1_sol t2_sol Ts

/-- `t_ctrl = np.concatenate([t1_ctrl, t2_ctrl])` (source line 242). -/
def t_ctrl (t1_sol t2_sol : ℚ) : List ℚ := t1_ctrl t1_sol ++ t2_ctrl t1_sol t2_sol

/-! ### Result document (source lines 211-212, 229-260) -/

/-- Modelled from the spec: a per-stage sampler object bound to the solved
gist, which "re-evaluates the optimal trajectory on a fixed-timestep control
grid".  The rockit library implementing `stage.sampler` is an external
collaborator, so a solved stage is modelled as one real-valued function of
time per sampled signal (`[theta1, x1, y1, theta0, x0, y0, delta0, v0]`,
source lines 211-212). -/
structure Gist where
  theta1 : ℚ → ℝ
  x1 : ℚ → ℝ
  y1 : ℚ → ℝ
  theta0 : ℚ → ℝ
  x0 : ℚ → ℝ
  y0 : ℚ → ℝ
  delta0 : ℚ → ℝ
  v0 : ℚ → ℝ

/-- Modelled from the spec: sampling one solved signal on a time grid
re-evaluates it pointwise on that grid, so the output has one entry per grid
point. -/
def sample (f : ℚ → ℝ) (ts : List ℚ) : List ℝ := ts.map f

/-- The `x` sub-document of the results file (source lines 245-251). -/
structure XDoc where
  px1 : List ℝ
  py1 : List ℝ
  theta1 : List ℝ
  px0 : List ℝ
  py0 : List ℝ
  theta0 : List ℝ

/-- The `u` sub-document of the results file (source lines 252-255). -/
structure UDoc where
  delta : List ℝ
  v_l : List ℝ

/-- The document written to `truck_trailer_x_u.yaml` (source lines 244-257):
exactly the keys `x`, `u` and `t`. -/
structure ResultDoc where
  x : XDoc
  u : UDoc
  t : List ℚ

/-- `result_yaml` as assembled by the script (source lines 231-257): each
signal is sampled per stage on that stage's control grid and the two stages
are concatenated (source lines 234-241); `t` is the concatenated grid. -/
def result_yaml (g1 g2 : Gist) (t1_sol t2_sol : ℚ) : ResultDoc :=
  { x := { px1 := sample g1.x1 (t1_ctrl t1_sol) ++ sample g2.x1 (t2_ctrl t1_sol t2_sol)
           py1 := sample g1.y1 (t1_ctrl t1_sol) ++ sample g2.y1 (t2_ctrl t1_sol t2_sol)
           theta1 := sample g1.theta1 (t1_ctrl t1_sol) ++
             sample g2.theta1 (t2_ctrl t1_sol t2_sol)
           px0 := sample g1.x0 (t1_ctrl t1_sol) ++ sample g2.x0 (t2_ctrl t1_sol t2_sol)
           py0 := sample g1.y0 (t1_ctrl t1_sol) ++ sample g2.y0 (t2_ctrl t1_sol t2_sol)
           theta0 := sample g1.theta0 (t1_ctrl t1_sol) ++
             sample g2.theta0 (t2_ctrl t1_sol t2_sol) }
    u := { delta := sample g1.delta0 (t1_ctrl t1_sol) ++
             sample g2.delta0 (t2_ctrl t1_sol t2_sol)
           v_l := sample g1.v0 (t1_ctrl t1_sol) ++ sample g2.v0 (t2_ctrl t1_sol t2_sol) }
    t := t_ctrl t1_sol t2_sol }

/-! ### Simulation loop (source lines 262-302) -/

/-- The per-signal logging arrays of the simulation loop, initialised with
`np.zeros(Nsim)` (source lines 267-273). -/
structure SimLog where
  theta1_sim : List ℝ
  x1_sim : List ℝ
  y1_sim : List ℝ
  theta0_sim : List ℝ
  x0_sim : List ℝ
  y0_sim : List ℝ

/-- The state carried through the simulation loop: the planned control arrays
(read, and — since the correction block is commented out — never written), the
logging arrays, and the current integrator state. -/
structure SimLoopState where
  delta0_ctrl : List ℝ
  v0_ctrl : List ℝ
  log : SimLog
  x_current : VehState

/-- Modelled from the spec: the type of the one-step-ahead vehicle integrator
`simulator(simu, x_current, u, dt)` from the external `simulator` module,
which is not among the sources under src/; it is kept abstract as an arbitrary
step map from state, input and timestep to the next state. -/
def SimStepFun : Type := VehState → Ctrl → ℝ → VehState

/-- The loop initialisation (source lines 267-275): zeroed logs of length
`Nsim` and `x_current = vertcat(theta1_t0, x1_t0, y1_t0, theta0_t0)`. -/
noncomputable def simInit (Nsim : ℕ) (delta0_ctrl v0_ctrl : List ℝ) : SimLoopState :=
  { delta0_ctrl := delta0_ctrl
    v0_ctrl := v0_ctrl
    log := { theta1_sim := List.replicate Nsim 0
             x1_sim := List.replicate Nsim 0
             y1_sim := List.replicate Nsim 0
             theta0_sim := List.replicate Nsim 0
             x0_sim := List.replicate Nsim 0
             y0_sim := List.replicate Nsim 0 }
    x_current := ⟨theta1_t0, x1_t0, y1_t0, theta0_t0⟩ }

/-- `beta01_sim = theta0_sim[k] - theta1_sim[k]` (source line 280): the
simulated articulation angle read from the logging arrays at step `k`. -/
noncomputable def beta01_sim (st : SimLoopState) (k : ℕ) : ℝ :=
  st.log.theta0_sim.getD k 0 - st.log.theta1_sim.getD k 0

/-- One iteration of the simulation loop (source lines 279-302): apply the
planned input `u = vertcat(delta0_ctrl[k], v0_ctrl[k])` over
`dt = t_ctrl[k+1] - t_ctrl[k]`, log the next state at index `k+1` (the truck
pose being reconstructed from the trailer state, lines 299-300), and advance
`x_current`.  The articulation error of lines 280-282 is computed but its
correction of the applied control is commented out, so the control arrays are
returned unchanged. -/
noncomputable def simStep (p : Params) (sim : SimStepFun) (t : List ℝ)
    (st : SimLoopState) (k : ℕ) : SimLoopState :=
  let u : Ctrl := ⟨st.delta0_ctrl.getD k 0, st.v0_ctrl.getD k 0⟩
  let dt : ℝ := t.getD (k + 1) 0 - t.getD k 0
  let x_next := sim st.x_current u dt
  { delta0_ctrl := st.delta0_ctrl
    v0_ctrl := st.v0_ctrl
    log := { theta1_sim := st.log.theta1_sim.set (k + 1) x_next.theta1
             x1_sim := st.log.x1_sim.set (k + 1) x_next.x1
             y1_sim := st.log.y1_sim.set (k + 1) x_next.y1
             theta0_sim := st.log.theta0_sim.set (k + 1) x_next.theta0
             x0_sim := st.log.x0_sim.set (k + 1)
               (x_next.x1 + p.L1 * Real.cos x_next.theta1 + p.M0 * Real.cos x_next.theta0)
             y0_sim := st.log.y0_sim.set (k + 1)
               (x_next.y1 + p.L1 * Real.sin x_next.theta1 + p.M0 * Real.sin x_next.theta0) }
    x_current := x_next }

/-- The loop state after the first `k` iterations of
`for k in range(Nsim-1)`. -/
noncomputable def simAfter (p : Params) (sim : SimStepFun) (t : List ℝ)
    (st : SimLoopState) (k : ℕ) : SimLoopState :=
  (List.range k).foldl (simStep p sim t) st

/-- The whole simulation loop `for k in range(Nsim-1)` (source line 279). -/
noncomputable def runSim (p : Params) (sim : SimStepFun) (t : List ℝ)
    (st : SimLoopState) (Nsim : ℕ) : SimLoopState :=
  simAfter p sim t st (Nsim - 1)

/-- A trivial concrete integrator used to instantiate theorems with
hypotheses: it never moves the state. -/
def simId : SimStepFun := fun s _ _ => s

end TruckTrailer

namespace TruckTrailer

/-- Membership of a truck corner constraint in the room-constraint list. -/
theorem mem_roomCons_truck (vv : VertFun) (p : Params) (w : List HalfPlane)
    (s : VehState) (q : ℝ × ℝ)
    (hq : q ∈ vv (x0 p s) (y0 p s) s.theta0 (p.W0 / 2) (p.W0 / 2) p.L0 p.M0)
    (h : HalfPlane) (hh : h ∈ w) :
    (HalfPlane.dotHom h q ≤ 0) ∈ roomConstraints vv p w s :=
  List.mem_append.2 (Or.inl (List.mem_flatMap.2 ⟨q, hq, List.mem_map.2 ⟨h, hh, rfl⟩⟩))

/-- Membership of a trailer corner constraint in the room-constraint list. -/
theorem mem_roomCons_trailer (vv : VertFun) (p : Params) (w : List HalfPlane)
    (s : VehState) (q : ℝ × ℝ)
    (hq : q ∈ vv s.x1 s.y1 s.theta1 (p.W1 / 2) (p.W1 / 2) p.L1 p.M1)
    (h : HalfPlane) (hh : h ∈ w) :
    (HalfPlane.dotHom h q ≤ 0) ∈ roomConstraints vv p w s :=
  List.mem_append.2 (Or.inr (List.mem_flatMap.2 ⟨q, hq, List.mem_map.2 ⟨h, hh, rfl⟩⟩))

/-- C1: every stage built by `create_stage` installs exactly the
bicycle-with-trailer kinematics: truck yaw rate `(v0/L0)*tan(delta0)`, trailer
yaw rate `(v0/L1)*sin(beta01) - (M0/L1)*cos(beta01)*dtheta0` with
`beta01 = theta0 - theta1`, hitch velocity
`v1 = v0*cos(beta01) + M0*sin(beta01)*dtheta0`, and trailer position
derivatives `(v1*cos(theta1), v1*sin(theta1))`. -/
theorem C1_stage_dynamics (p : Params) (s : VehState) (u : Ctrl) :
    (stateDer p s u).theta0 = u.v0 / p.L0 * Real.tan u.delta0 ∧
    (stateDer p s u).theta1 =
      u.v0 / p.L1 * Real.sin (s.theta0 - s.theta1) -
        p.M0 / p.L1 * Real.cos (s.theta0 - s.theta1) *
          (u.v0 / p.L0 * Real.tan u.delta0) ∧
    v1 p s u =
      u.v0 * Real.cos (s.theta0 - s.theta1) +
        p.M0 * Real.sin (s.theta0 - s.theta1) * (u.v0 / p.L0 * Real.tan u.delta0) ∧
    (stateDer p s u).x1 = v1 p s u * Real.cos s.theta1 ∧
    (stateDer p s u).y1 = v1 p s u * Real.sin s.theta1 := by
  refine ⟨rfl, ?_, ?_, rfl, rfl⟩ <;>
    simp [stateDer, dtheta1, v1, dtheta0, beta01]

/-- C2: `stitch_stages` imposes exactly the continuity equalities — stage 1's
final time equals stage 2's initial time, and each of the four declared states
of stage 2 at its initial time equals the corresponding state of stage 1 at
its final time; jointly these hold iff the time and the full state vector
match at the junction, and no other constraint is in the emitted list. -/
theorem C2_stitch_constraints (s1 s2 : StageSol) :
    ((∀ c ∈ stitch_stages s1 s2, c) ↔
      s1.tf = s2.t0 ∧ s2.traj s2.t0 = s1.traj s1.tf) ∧
    stitch_stages s1 s2 =
      [s1.tf = s2.t0,
       (s2.traj s2.t0).theta1 = (s1.traj s1.tf).theta1,
       (s2.traj s2.t0).x1 = (s1.traj s1.tf).x1,
       (s2.traj s2.t0).y1 = (s1.traj s1.tf).y1,
       (s2.traj s2.t0).theta0 = (s1.traj s1.tf).theta0] := by
  constructor
  · simp only [stitch_stages, stateProjections, List.map_cons, List.map_nil,
      List.forall_mem_cons, List.not_mem_nil, false_implies, implies_true, and_true]
    constructor
    · rintro ⟨ht, h1, h2, h3, h4⟩
      exact ⟨ht, VehState.ext h1 h2 h3 h4⟩
    · rintro ⟨ht, hst⟩
      exact ⟨ht, by rw [hst], by rw [hst], by rw [hst], by rw [hst]⟩
  · rfl

/-- C3: stage 1 carries exactly the corridor columns `w1_1, w2_1, w1_2` and
stage 2 exactly `w1_2, w2_2, w1_1`, and for every corner vertex `q` of the
truck footprint and of the trailer footprint, and every half-plane column `h`
of the stage's corridor matrix, the constraint `h . (qx, qy, 1) <= 0` is among
the stage's room constraints. -/
theorem C3_corridor_constraints (p : Params) (vv : VertFun) (s : VehState) :
    (stage_1 p vv).corridor = [w1_1, w2_1, w1_2] ∧
    (stage_2 p vv).corridor = [w1_2, w2_2, w1_1] ∧
    (∀ q ∈ vv (x0 p s) (y0 p s) s.theta0 (p.W0 / 2) (p.W0 / 2) p.L0 p.M0,
       ∀ h ∈ (stage_1 p vv).corridor,
         (HalfPlane.dotHom h q ≤ 0) ∈ (stage_1 p vv).roomCons s) ∧
    (∀ q ∈ vv s.x1 s.y1 s.theta1 (p.W1 / 2) (p.W1 / 2) p.L1 p.M1,
       ∀ h ∈ (stage_1 p vv).corridor,
         (HalfPlane.dotHom h q ≤ 0) ∈ (stage_1 p vv).roomCons s) ∧
    (∀ q ∈ vv (x0 p s) (y0 p s) s.theta0 (p.W0 / 2) (p.W0 / 2) p.L0 p.M0,
       ∀ h ∈ (stage_2 p vv).corridor,
         (HalfPlane.dotHom h q ≤ 0) ∈ (stage_2 p vv).roomCons s) ∧
    (∀ q ∈ vv s.x1 s.y1 s.theta1 (p.W1 / 2) (p.W1 / 2) p.L1 p.M1,
       ∀ h ∈ (stage_2 p vv).corridor,
         (HalfPlane.dotHom h q ≤ 0) ∈ (stage_2 p vv).roomCons s) := by
  refine ⟨rfl, rfl, ?_, ?_, ?_, ?_⟩ <;> intro q hq h hh
  · exact mem_roomCons_truck vv p _ s q hq h hh
  · exact mem_roomCons_trailer vv p _ s q hq h hh
  · exact mem_roomCons_truck vv p _ s q hq h hh
  · exact mem_roomCons_trailer vv p _ s q hq h hh

/-- Witness for C3: at concrete parameters, footprint function and state, the
corner constraints for `w1_1` (stage 1) and `w2_2` (stage 2) are in the
respective room-constraint lists. -/
theorem C3_corridor_constraints_witness :
    (HalfPlane.dotHom w1_1 (0, 0) ≤ 0) ∈ (stage_1 pOne vvOne).roomCons ⟨0, 0, 0, 0⟩ ∧
    (HalfPlane.dotHom w2_2 (0, 0) ≤ 0) ∈ (stage_2 pOne vvOne).roomCons ⟨0, 0, 0, 0⟩ := by
  have h := C3_corridor_constraints pOne vvOne ⟨0, 0, 0, 0⟩
  refine ⟨h.2.2.1 (0, 0) ?_ w1_1 ?_, h.2.2.2.2.1 (0, 0) ?_ w2_2 ?_⟩
  · simp [vvOne]
  · rw [h.1]; simp
  · simp [vvOne]
  · rw [h.2.1]; simp

/-- C4: every stage built by `create_stage`, whatever its arguments, imposes
the path constraints `v0 ∈ [-0.2, 0.2]`, `der(v0) ∈ [-1, 1]`,
`delta0 ∈ [-pi/6, pi/6]`, `der(delta0) ∈ [-pi/10, pi/10]` and
`theta0 - theta1 ∈ [-pi/2, pi/2]` — and nothing else — and declares both
controls with order 1. -/
theorem C4_path_box_constraints (p : Params) (vv : VertFun) (t0 T : ℝ) (N M : ℕ)
    (w : List HalfPlane) (s : VehState) (u du : Ctrl) :
    ((∀ c ∈ (create_stage p vv t0 T N M w).pathCons s u du, c) ↔
      ((-0.2 ≤ u.v0 ∧ u.v0 ≤ 0.2) ∧
       (-1 ≤ du.v0 ∧ du.v0 ≤ 1) ∧
       (-(Real.pi / 6) ≤ u.delta0 ∧ u.delta0 ≤ Real.pi / 6) ∧
       (-(Real.pi / 10) ≤ du.delta0 ∧ du.delta0 ≤ Real.pi / 10) ∧
       (-(Real.pi / 2) ≤ s.theta0 - s.theta1 ∧ s.theta0 - s.theta1 ≤ Real.pi / 2))) ∧
    (create_stage p vv t0 T N M w).controlOrders = [1, 1] := by
  refine ⟨?_, rfl⟩
  simp only [create_stage, pathConstraints, beta01, List.forall_mem_cons,
    List.not_mem_nil, false_implies, implies_true, and_true]

/-- Every element of `arange a b s` (positive step) lies in `[a, b)`. -/
theorem mem_arange_bounds (a b s : ℚ) (hs : 0 < s) (x : ℚ) (hx : x ∈ arange a b s) :
    a ≤ x ∧ x < b := by
  rcases List.mem_map.1 hx with ⟨i, hi, rfl⟩
  rw [List.mem_range] at hi
  have hiq : (i : ℚ) < (b - a) / s := Nat.lt_ceil.1 hi
  constructor
  · nlinarith [mul_nonneg (Nat.cast_nonneg (α := ℚ) i) hs.le]
  · have h2 : (i : ℚ) * s < (b - a) / s * s := mul_lt_mul_of_pos_right hiq hs
    rw [div_mul_cancel₀ _ hs.ne'] at h2
    linarith

/-- A nonempty `arange` starts at its left endpoint. -/
theorem arange_head (a b s : ℚ) (h : 0 < (b - a) / s) :
    (arange a b s).head? = some a := by
  obtain ⟨m, hm⟩ : ∃ m, ⌈(b - a) / s⌉₊ = m + 1 :=
    ⟨⌈(b - a) / s⌉₊ - 1, (Nat.succ_pred_eq_of_pos (Nat.ceil_pos.2 h)).symm⟩
  unfold arange
  rw [hm, List.range_succ_eq_map]
  simp

/-- `arange` with a positive step is strictly increasing. -/
theorem arange_chain (a b s : ℚ) (hs : 0 < s) :
    List.Chain' (fun x y => x < y) (arange a b s) := by
  unfold arange
  rw [List.chain'_map]
  generalize ⌈(b - a) / s⌉₊ = n
  cases n with
  | zero => simp
  | succ m =>
      rw [List.chain'_range_succ]
      intro i _
      have h1 : (i : ℚ) < (i : ℚ) + 1 := by linarith
      push_cast
      nlinarith

/-- The last element of a nonempty `arange` is `a + m*s` where `m + 1` is its
length. -/
theorem arange_getLast (a b s : ℚ) (m : ℕ) (hm : ⌈(b - a) / s⌉₊ = m + 1) :
    (arange a b s).getLast? = some (a + (m : ℚ) * s) := by
  unfold arange
  rw [hm, List.range_succ m, List.map_append]
  exact List.getLast?_concat _

/-- C5: for solved stage times with `0 < t1_sol < t2_sol`, the concatenated
resampled grid `t_ctrl = arange(0, t1_sol, Ts) ++ arange(t1_sol, t2_sol, Ts)`
starts at 0, every entry lies in `[0, t2_sol)`, and consecutive entries
strictly increase. -/
theorem C5_t_ctrl_monotone (t1_sol t2_sol : ℚ) (h1 : 0 < t1_sol)
    (h2 : t1_sol < t2_sol) :
    (t_ctrl t1_sol t2_sol).head? = some 0 ∧
    (∀ x ∈ t_ctrl t1_sol t2_sol, 0 ≤ x ∧ x < t2_sol) ∧
    List.Chain' (fun x y => x < y) (t_ctrl t1_sol t2_sol) := by
  have hTs : (0 : ℚ) < Ts := by norm_num [Ts]
  have hq1 : 0 < (t1_sol - 0) / Ts := div_pos (by linarith) hTs
  have hq2 : 0 < (t2_sol - t1_sol) / Ts := div_pos (by linarith) hTs
  refine ⟨?_, ?_, ?_⟩
  · refine List.mem_head?_append_of_mem_head? ?_
    simp only [t1_ctrl]
    rw [arange_head 0 t1_sol Ts hq1]
    rfl
  · intro x hx
    rcases List.mem_append.1 hx with hx1 | hx2
    · have := mem_arange_bounds 0 t1_sol Ts hTs x hx1
      exact ⟨this.1, lt_trans this.2 h2⟩
    · have := mem_arange_bounds t1_sol t2_sol Ts hTs x hx2
      exact ⟨le_trans h1.le this.1, this.2⟩
  · simp only [t_ctrl]
    rw [List.chain'_append]
    refine ⟨arange_chain 0 t1_sol Ts hTs, arange_chain t1_sol t2_sol Ts hTs, ?_⟩
    intro x hx y hy
    obtain ⟨m, hm⟩ : ∃ m, ⌈(t1_sol - 0) / Ts⌉₊ = m + 1 :=
      ⟨⌈(t1_sol - 0) / Ts⌉₊ - 1, (Nat.succ_pred_eq_of_pos (Nat.ceil_pos.2 hq1)).symm⟩
    simp only [t1_ctrl] at hx
    rw [arange_getLast 0 t1_sol Ts m hm, Option.mem_some_iff] at hx
    simp only [t2_ctrl] at hy
    rw [arange_head t1_sol t2_sol Ts hq2, Option.mem_some_iff] at hy
    subst hx
    subst hy
    have hmem : (0 : ℚ) + (m : ℚ) * Ts ∈ arange 0 t1_sol Ts :=
      List.mem_map.2 ⟨m, List.mem_range.2 (by rw [hm]; exact Nat.lt_succ_self m), rfl⟩
    exact (mem_arange_bounds 0 t1_sol Ts hTs _ hmem).2

/-- Witness for C5: the theorem instantiated at `t1_sol = 1/4`,
`t2_sol = 7/20` (grids `[0, 1/10, 1/5]` and `[1/4]`). -/
theorem C5_t_ctrl_monotone_witness :
    (t_ctrl (1/4) (7/20)).head? = some 0 ∧
    (∀ x ∈ t_ctrl (1/4) (7/20), 0 ≤ x ∧ x < 7/20) ∧
    List.Chain' (fun x y => x < y) (t_ctrl (1/4) (7/20)) :=
  C5_t_ctrl_monotone (1/4) (7/20) (by norm_num) (by norm_num)

/-- C7: the problem is configured with the `ipopt` interior-point solver,
tolerance `1e-8`, the `ma57` linear-algebra backend, and `error_on_fail`
set, so non-convergence raises instead of silently returning. -/
theorem C7_solver_config :
    solverName = "ipopt" ∧
    options.error_on_fail = true ∧
    options.ipopt.tol = 1e-8 ∧
    options.ipopt.linear_solver = "ma57" ∧
    options.expand = true :=
  ⟨rfl, rfl, rfl, rfl, rfl⟩

/-- C6: the result document carries exactly the keys `x` (`px1, py1, theta1,
px0, py0, theta0`), `u` (`delta, v_l`) and `t` (enforced by the `ResultDoc`,
`XDoc` and `UDoc` record types), and all nine arrays have the same length,
that of the concatenated resampled control grid. -/
theorem C6_result_doc_lengths (g1 g2 : Gist) (t1_sol t2_sol : ℚ) :
    (result_yaml g1 g2 t1_sol t2_sol).t = t_ctrl t1_sol t2_sol ∧
    (result_yaml g1 g2 t1_sol t2_sol).x.px1.length = (t_ctrl t1_sol t2_sol).length ∧
    (result_yaml g1 g2 t1_sol t2_sol).x.py1.length = (t_ctrl t1_sol t2_sol).length ∧
    (result_yaml g1 g2 t1_sol t2_sol).x.theta1.length = (t_ctrl t1_sol t2_sol).length ∧
    (result_yaml g1 g2 t1_sol t2_sol).x.px0.length = (t_ctrl t1_sol t2_sol).length ∧
    (result_yaml g1 g2 t1_sol t2_sol).x.py0.length = (t_ctrl t1_sol t2_sol).length ∧
    (result_yaml g1 g2 t1_sol t2_sol).x.theta0.length = (t_ctrl t1_sol t2_sol).length ∧
    (result_yaml g1 g2 t1_sol t2_sol).u.delta.length = (t_ctrl t1_sol t2_sol).length ∧
    (result_yaml g1 g2 t1_sol t2_sol).u.v_l.length = (t_ctrl t1_sol t2_sol).length := by
  refine ⟨rfl, ?_, ?_, ?_, ?_, ?_, ?_, ?_, ?_⟩ <;>
    simp [result_yaml, sample, t_ctrl]

/-- Each simulation step leaves the planned control arrays unchanged, hence so
does any number of iterations. -/
theorem simAfter_ctrl (p : Params) (sim : SimStepFun) (t : List ℝ)
    (st : SimLoopState) (k : ℕ) :
    (simAfter p sim t st k).delta0_ctrl = st.delta0_ctrl ∧
    (simAfter p sim t st k).v0_ctrl = st.v0_ctrl := by
  have key : ∀ (l : List ℕ) (st : SimLoopState),
      (l.foldl (simStep p sim t) st).delta0_ctrl = st.delta0_ctrl ∧
      (l.foldl (simStep p sim t) st).v0_ctrl = st.v0_ctrl := by
    intro l
    induction l with
    | nil => intro st; exact ⟨rfl, rfl⟩
    | cons a l ih => intro st; exact ih (simStep p sim t st a)
  exact key (List.range k) st

/-- C8: on every loop iteration the input handed to the one-step integrator is
exactly `(delta0_ctrl[k], v0_ctrl[k])` from the resampled open-loop plan, and
the loop leaves the planned control arrays unchanged (the feedback-correction
block is commented out). -/
theorem C8_open_loop_inputs (p : Params) (sim : SimStepFun) (t : List ℝ)
    (delta0_ctrl v0_ctrl : List ℝ) (Nsim : ℕ) (k : ℕ) (hk : k < Nsim - 1) :
    (runSim p sim t (simInit Nsim delta0_ctrl v0_ctrl) Nsim).delta0_ctrl =
      delta0_ctrl ∧
    (runSim p sim t (simInit Nsim delta0_ctrl v0_ctrl) Nsim).v0_ctrl = v0_ctrl ∧
    (simAfter p sim t (simInit Nsim delta0_ctrl v0_ctrl) (k + 1)).x_current =
      sim (simAfter p sim t (simInit Nsim delta0_ctrl v0_ctrl) k).x_current
        ⟨delta0_ctrl.getD k 0, v0_ctrl.getD k 0⟩
        (t.getD (k + 1) 0 - t.getD k 0) := by
  refine ⟨(simAfter_ctrl p sim t _ _).1, (simAfter_ctrl p sim t _ _).2, ?_⟩
  have hstep : simAfter p sim t (simInit Nsim delta0_ctrl v0_ctrl) (k + 1) =
      simStep p sim t (simAfter p sim t (simInit Nsim delta0_ctrl v0_ctrl) k) k := by
    simp only [simAfter]
    rw [List.range_succ k, List.foldl_append, List.foldl_cons, List.foldl_nil]
  rw [hstep]
  have hd := (simAfter_ctrl p sim t (simInit Nsim delta0_ctrl v0_ctrl) k).1
  have hv := (simAfter_ctrl p sim t (simInit Nsim delta0_ctrl v0_ctrl) k).2
  simp only [simStep, hd, hv]
  rfl

/-- Witness for C8: the theorem applied at concrete inputs (identity
integrator, two grid points, step `k = 0`). -/
theorem C8_open_loop_inputs_witness :
    (runSim pOne simId [] (simInit 2 [1] [2]) 2).delta0_ctrl = [1] ∧
    (simAfter pOne simId [] (simInit 2 [1] [2]) 1).x_current =
      simId (simAfter pOne simId [] (simInit 2 [1] [2]) 0).x_current
        ⟨List.getD [1] 0 0, List.getD [2] 0 0⟩
        (List.getD ([] : List ℝ) 1 0 - List.getD ([] : List ℝ) 0 0) := by
  have h := C8_open_loop_inputs pOne simId [] [1] [2] 2 0 (by norm_num)
  exact ⟨h.1, h.2.2⟩

/-- C9: the truck reference position is derived, not a state — `x0` and `y0`
are the hitch-offset reconstructions from the declared states (`theta1, x1,
y1, theta0` being the whole state vector), and the simulation loop logs the
simulated truck position with the identical reconstruction formula applied to
the simulated trailer state. -/
theorem C9_truck_pose_derived (p : Params) (vv : VertFun) (t0 T : ℝ) (N M : ℕ)
    (w : List HalfPlane) (s : VehState) (sim : SimStepFun) (t : List ℝ)
    (st : SimLoopState) (k : ℕ) :
    x0 p s = s.x1 + p.L1 * Real.cos s.theta1 + p.M0 * Real.cos s.theta0 ∧
    y0 p s = s.y1 + p.L1 * Real.sin s.theta1 + p.M0 * Real.sin s.theta0 ∧
    (create_stage p vv t0 T N M w).states =
      [VehState.theta1, VehState.x1, VehState.y1, VehState.theta0] ∧
    (simStep p sim t st k).log.x0_sim =
      st.log.x0_sim.set (k + 1) (x0 p ((simStep p sim t st k).x_current)) ∧
    (simStep p sim t st k).log.y0_sim =
      st.log.y0_sim.set (k + 1) (y0 p ((simStep p sim t st k).x_current)) :=
  ⟨rfl, rfl, rfl, rfl, rfl⟩

/-- A write at a positive index never changes the entry at index 0. -/
theorem getD_zero_set_succ (l : List ℝ) (k : ℕ) (a : ℝ) :
    (l.set (k + 1) a).getD 0 0 = l.getD 0 0 := by
  cases l <;> rfl

/-- The simulation loop writes log indices `k + 1` only, so the entry at
index 0 of every one of the six logging arrays never changes. -/
theorem simAfter_log_zero (p : Params) (sim : SimStepFun) (t : List ℝ)
    (st : SimLoopState) (k : ℕ) :
    (simAfter p sim t st k).log.theta1_sim.getD 0 0 =
      st.log.theta1_sim.getD 0 0 ∧
    (simAfter p sim t st k).log.x1_sim.getD 0 0 =
      st.log.x1_sim.getD 0 0 ∧
    (simAfter p sim t st k).log.y1_sim.getD 0 0 =
      st.log.y1_sim.getD 0 0 ∧
    (simAfter p sim t st k).log.theta0_sim.getD 0 0 =
      st.log.theta0_sim.getD 0 0 ∧
    (simAfter p sim t st k).log.x0_sim.getD 0 0 =
      st.log.x0_sim.getD 0 0 ∧
    (simAfter p sim t st k).log.y0_sim.getD 0 0 =
      st.log.y0_sim.getD 0 0 := by
  have key : ∀ (l : List ℕ) (st : SimLoopState),
      ((l.foldl (simStep p sim t) st).log.theta1_sim.getD 0 0 =
        st.log.theta1_sim.getD 0 0) ∧
      ((l.foldl (simStep p sim t) st).log.x1_sim.getD 0 0 =
        st.log.x1_sim.getD 0 0) ∧
      ((l.foldl (simStep p sim t) st).log.y1_sim.getD 0 0 =
        st.log.y1_sim.getD 0 0) ∧
      ((l.foldl (simStep p sim t) st).log.theta0_sim.getD 0 0 =
        st.log.theta0_sim.getD 0 0) ∧
      ((l.foldl (simStep p sim t) st).log.x0_sim.getD 0 0 =
        st.log.x0_sim.getD 0 0) ∧
      ((l.foldl (simStep p sim t) st).log.y0_sim.getD 0 0 =
        st.log.y0_sim.getD 0 0) := by
    intro l
    induction l with
    | nil => intro st; exact ⟨rfl, rfl, rfl, rfl, rfl, rfl⟩
    | cons a l ih =>
        intro st
        refine ⟨?_, ?_, ?_, ?_, ?_, ?_⟩
        · rw [List.foldl_cons, (ih _).1]
          exact getD_zero_set_succ _ a _
        · rw [List.foldl_cons, (ih _).2.1]
          exact getD_zero_set_succ _ a _
        · rw [List.foldl_cons, (ih _).2.2.1]
          exact getD_zero_set_succ _ a _
        · rw [List.foldl_cons, (ih _).2.2.2.1]
          exact getD_zero_set_succ _ a _
        · rw [List.foldl_cons, (ih _).2.2.2.2.1]
          exact getD_zero_set_succ _ a _
        · rw [List.foldl_cons, (ih _).2.2.2.2.2]
          exact getD_zero_set_succ _ a _
  exact key (List.range k) st

/-- C10: the index-0 entry of every one of the six simulated-trajectory
logging arrays stays at its zero initialisation (the loop writes only indices
`k + 1`), while the integrator's initial state has `theta1 = theta0 = pi/2`;
hence the first logged sample differs from the initial state, and the
articulation error at step 0 reads the zeroed entries, giving
`beta01_sim = 0`. -/
theorem C10_sim_log_zero_index (p : Params) (sim : SimStepFun) (t : List ℝ)
    (delta0_ctrl v0_ctrl : List ℝ) (Nsim : ℕ) :
    (runSim p sim t (simInit Nsim delta0_ctrl v0_ctrl) Nsim).log.theta1_sim.getD 0 0
      = 0 ∧
    (runSim p sim t (simInit Nsim delta0_ctrl v0_ctrl) Nsim).log.x1_sim.getD 0 0
      = 0 ∧
    (runSim p sim t (simInit Nsim delta0_ctrl v0_ctrl) Nsim).log.y1_sim.getD 0 0
      = 0 ∧
    (runSim p sim t (simInit Nsim delta0_ctrl v0_ctrl) Nsim).log.theta0_sim.getD 0 0
      = 0 ∧
    (runSim p sim t (simInit Nsim delta0_ctrl v0_ctrl) Nsim).log.x0_sim.getD 0 0
      = 0 ∧
    (runSim p sim t (simInit Nsim delta0_ctrl v0_ctrl) Nsim).log.y0_sim.getD 0 0
      = 0 ∧
    (simInit Nsim delta0_ctrl v0_ctrl).x_current.theta1 = Real.pi / 2 ∧
    (simInit Nsim delta0_ctrl v0_ctrl).x_current.theta0 = Real.pi / 2 ∧
    (runSim p sim t (simInit Nsim delta0_ctrl v0_ctrl) Nsim).log.theta1_sim.getD 0 0
      ≠ (simInit Nsim delta0_ctrl v0_ctrl).x_current.theta1 ∧
    beta01_sim (simInit Nsim delta0_ctrl v0_ctrl) 0 = 0 := by
  have hz : ∀ a : ℝ, (List.replicate Nsim a).getD 0 a = a := by
    intro a
    cases Nsim <;> rfl
  have hlog := simAfter_log_zero p sim t (simInit Nsim delta0_ctrl v0_ctrl) (Nsim - 1)
  have h1 : (runSim p sim t (simInit Nsim delta0_ctrl v0_ctrl)
      Nsim).log.theta1_sim.getD 0 0 = 0 := by
    rw [runSim, hlog.1]
    exact hz 0
  have hx1 : (runSim p sim t (simInit Nsim delta0_ctrl v0_ctrl)
      Nsim).log.x1_sim.getD 0 0 = 0 := by
    rw [runSim, hlog.2.1]
    exact hz 0
  have hy1 : (runSim p sim t (simInit Nsim delta0_ctrl v0_ctrl)
      Nsim).log.y1_sim.getD 0 0 = 0 := by
    rw [runSim, hlog.2.2.1]
    exact hz 0
  have h0 : (runSim p sim t (simInit Nsim delta0_ctrl v0_ctrl)
      Nsim).log.theta0_sim.getD 0 0 = 0 := by
    rw [runSim, hlog.2.2.2.1]
    exact hz 0
  have hx0 : (runSim p sim t (simInit Nsim delta0_ctrl v0_ctrl)
      Nsim).log.x0_sim.getD 0 0 = 0 := by
    rw [runSim, hlog.2.2.2.2.1]
    exact hz 0
  have hy0 : (runSim p sim t (simInit Nsim delta0_ctrl v0_ctrl)
      Nsim).log.y0_sim.getD 0 0 = 0 := by
    rw [runSim, hlog.2.2.2.2.2]
    exact hz 0
  refine ⟨h1, hx1, hy1, h0, hx0, hy0, rfl, rfl, ?_, ?_⟩
  · rw [h1]
    show (0 : ℝ) ≠ theta1_t0
    rw [theta1_t0]
    exact ne_of_lt (by positivity)
  · show (List.replicate Nsim (0:ℝ)).getD 0 0 - (List.replicate Nsim (0:ℝ)).getD 0 0 = 0
    rw [hz 0, sub_zero]

end TruckTrailer
